import Mathlib

/-!
Shallow embedding of the messagely core: the `User` model (src/models/user.js),
the auth routes (src/routes/auth.js) and the message routes
(src/routes/messages.js).  The relational store is modelled as an explicit
`Db` state threaded through every operation; bcrypt's `hash`/`compare` and
jwt's `sign` are external collaborators and appear as function parameters.
SQL result rows whose column list matters are modelled as association lists
`List (String × JsValue)` mirroring the SELECT/RETURNING column lists of the
source verbatim.  `src/models/message.js` and `src/middleware/auth.js` are
required by the routes but are not part of the source tree; they are
modelled from the spec and marked as such below.
-/

namespace Messagely

/-- A JavaScript value as it appears in a result row: a string column, a
numeric/timestamp column, or SQL NULL. -/
inductive JsValue where
  | str (s : String)
  | num (n : Nat)
  | null
deriving Repr, DecidableEq

/-- The generic error type of the source (expressError.js): a message and an
HTTP status code.  Per the spec's error table, `InvalidInput` and
`DuplicateUsername` carry status 400, `Forbidden` and `Unauthenticated`
carry 401, and `NotFound` carries 404. -/
structure ExpressError where
  message : String
  status : Nat
deriving Repr, DecidableEq

/-- A row of the `users` table (schema implied by the SQL in
src/models/user.js).  `password` stores the bcrypt hash.  Timestamps are
modelled as naturals. -/
structure UserRecord where
  username : String
  password : String
  first_name : String
  last_name : String
  phone : String
  join_at : Nat
  last_login_at : Nat
deriving Repr, DecidableEq

/-- A row of the `messages` table (schema implied by the SQL in
src/models/user.js and the spec's Message data model).  `read_at` is
nullable: `none` until first read. -/
structure MessageRecord where
  id : Nat
  from_username : String
  to_username : String
  body : String
  sent_at : Nat
  read_at : Option Nat
deriving Repr, DecidableEq

/-- The relational store plus the clock: `now` is the instant the store's
`now()`/`current_timestamp` returns for the current request, and `nextId`
is the next storage-assigned message id. -/
structure Db where
  users : List UserRecord
  messages : List MessageRecord
  nextId : Nat
  now : Nat
deriving Repr, DecidableEq

/-- Outcome of `User.register`: the source either returns the RETURNING row,
throws an `ExpressError`, or — when its catch block handles a storage error
whose code is not "23505" without rethrowing — falls off the end of the
function and returns `undefined`. -/
inductive RegisterOutcome where
  | ok (row : List (String × JsValue))
  | err (e : ExpressError)
  | undef
deriving Repr, DecidableEq

/-- The INSERT INTO users of `User.register`.  A `fault` of `some code`
models a storage failure with that error code (connection loss, not-null
violation, ...); with no injected fault the only failure the store produces
here is the unique-key conflict on `username`, pg error code "23505". -/
def insertUser (fault : Option String) (db : Db) (u : UserRecord) : Except String Db :=
  match fault with
  | some code => Except.error code
  | none =>
      if db.users.any (fun r => r.username == u.username) then Except.error "23505"
      else Except.ok { db with users := db.users ++ [u] }

/-- The RETURNING clause of `User.register`:
`RETURNING username, password, first_name, last_name, phone`. -/
def registerReturning (u : UserRecord) : List (String × JsValue) :=
  [("username", JsValue.str u.username),
   ("password", JsValue.str u.password),
   ("first_name", JsValue.str u.first_name),
   ("last_name", JsValue.str u.last_name),
   ("phone", JsValue.str u.phone)]

/-- src/models/user.js `User.register`: hashes the password, inserts the row
with `join_at` and `last_login_at` both set to the current instant, and
returns the RETURNING row.  Its catch block rethrows a storage error as
`ExpressError ("Username taken. Please pick another", 400)` when the code is
"23505", and otherwise swallows it (the function then returns undefined). -/
def User.register (hash : String → String) (fault : Option String) (db : Db)
    (username password first_name last_name phone : String) :
    RegisterOutcome × Db :=
  let hashedPass := hash password
  let rec0 : UserRecord :=
    ⟨username, hashedPass, first_name, last_name, phone, db.now, db.now⟩
  match insertUser fault db rec0 with
  | Except.ok db2 => (RegisterOutcome.ok (registerReturning rec0), db2)
  | Except.error code =>
      if code == "23505" then
        (RegisterOutcome.err ⟨"Username taken. Please pick another", 400⟩, db)
      else
        (RegisterOutcome.undef, db)

/-- src/models/user.js `User.authenticate`: throws 400 when either argument
is falsy (empty/absent, modelled as the empty string); otherwise looks the
user up and returns the boolean result of `bcrypt.compare` against the
stored hash, or `false` when no such user exists.  (On a successful compare
the source also signs a token it never uses; that has no observable
effect.) -/
def User.authenticate (compare : String → String → Bool) (db : Db)
    (username password : String) : Except ExpressError Bool :=
  if username == "" || password == "" then
    Except.error ⟨"Username and password required", 400⟩
  else
    match db.users.find? (fun r => r.username == username) with
    | none => Except.ok false
    | some user => Except.ok (compare password user.password)

/-- src/models/user.js `User.updateLoginTimestamp`: stamps
`last_login_at = current_timestamp` for the given username. -/
def User.updateLoginTimestamp (db : Db) (username : String) : Db :=
  { db with
    users := db.users.map (fun r =>
      if r.username == username then { r with last_login_at := db.now } else r) }

/-- The column list of `User.all`:
`SELECT username, first_name, last_name, phone FROM users`. -/
def allRow (u : UserRecord) : List (String × JsValue) :=
  [("username", JsValue.str u.username),
   ("first_name", JsValue.str u.first_name),
   ("last_name", JsValue.str u.last_name),
   ("phone", JsValue.str u.phone)]

/-- src/models/user.js `User.all`. -/
def User.all (db : Db) : List (List (String × JsValue)) :=
  db.users.map allRow

/-- The column list of `User.get`: `SELECT username, first_name, last_name,
phone, join_at, last_login_at FROM users WHERE username = $1`. -/
def getRow (u : UserRecord) : List (String × JsValue) :=
  [("username", JsValue.str u.username),
   ("first_name", JsValue.str u.first_name),
   ("last_name", JsValue.str u.last_name),
   ("phone", JsValue.str u.phone),
   ("join_at", JsValue.num u.join_at),
   ("last_login_at", JsValue.num u.last_login_at)]

/-- src/models/user.js `User.get`: 404 when no row matches. -/
def User.get (db : Db) (username : String) :
    Except ExpressError (List (String × JsValue)) :=
  match db.users.find? (fun r => r.username == username) with
  | none => Except.error ⟨"user not found", 404⟩
  | some u => Except.ok (getRow u)

/-- The embedded user summary built by `User.messagesFrom` /
`User.messagesTo` from the LEFT JOIN columns; when the joined user row is
absent every joined column is NULL. -/
structure JoinedSummary where
  username : JsValue
  first_name : JsValue
  last_name : JsValue
  phone : JsValue
deriving Repr, DecidableEq

/-- The LEFT JOIN of users on a username key: the joined columns, NULL when
no user row matches. -/
def leftJoin (db : Db) (uname : String) : Option UserRecord :=
  db.users.find? (fun r => r.username == uname)

/-- One element of the list `User.messagesFrom` / `User.messagesTo`
construct: the message columns plus the embedded counterparty summary. -/
structure MessageListItem where
  id : Nat
  user : JoinedSummary
  body : String
  sent_at : Nat
  read_at : Option Nat
deriving Repr, DecidableEq

/-- JavaScript truthiness of an array value: an array is an object, and
every object is truthy, so `!messages` is false for every array, empty or
not. -/
def jsArrayFalsy {α : Type} (_xs : List α) : Bool :=
  false

/-- src/models/user.js `User.messagesFrom`: selects the messages sent by
`username`, left-joining the recipient's user row; `to_user.username` is
taken from the message column `m.to_username`, the remaining summary fields
from the joined row (NULL when absent).  The source then has a
`if (!messages) throw 404` branch on the mapped array. -/
def User.messagesFrom (db : Db) (username : String) :
    Except ExpressError (List MessageListItem) :=
  let messages :=
    (db.messages.filter (fun m => m.from_username == username)).map (fun m =>
      { id := m.id
        user :=
          match leftJoin db m.to_username with
          | some u =>
              ⟨JsValue.str m.to_username, JsValue.str u.first_name,
               JsValue.str u.last_name, JsValue.str u.phone⟩
          | none =>
              ⟨JsValue.str m.to_username, JsValue.null, JsValue.null, JsValue.null⟩
        body := m.body
        sent_at := m.sent_at
        read_at := m.read_at })
  if jsArrayFalsy messages then Except.error ⟨"messages not found", 404⟩
  else Except.ok messages

/-- src/models/user.js `User.messagesTo`: symmetric to `messagesFrom`,
filtered on `m.to_username`, left-joining the sender's row; here
`from_user.username` is the joined column `u.username` (NULL when the
sender row is absent). -/
def User.messagesTo (db : Db) (username : String) :
    Except ExpressError (List MessageListItem) :=
  let messages :=
    (db.messages.filter (fun m => m.to_username == username)).map (fun m =>
      { id := m.id
        user :=
          match leftJoin db m.from_username with
          | some u =>
              ⟨JsValue.str u.username, JsValue.str u.first_name,
               JsValue.str u.last_name, JsValue.str u.phone⟩
          | none =>
              ⟨JsValue.null, JsValue.null, JsValue.null, JsValue.null⟩
        body := m.body
        sent_at := m.sent_at
        read_at := m.read_at })
  if jsArrayFalsy messages then Except.error ⟨"messages not found", 404⟩
  else Except.ok messages

/-- The embedded user summary of the spec's Message Ledger `get`:
`{username, firstName, lastName, phone}` for a referenced user.  The
username field is the join key itself; name/phone come from the referenced
user's row when present. -/
structure SpecUserSummary where
  username : String
  first_name : String
  last_name : String
  phone : String
deriving Repr, DecidableEq

/-- Modelled from the spec (src/models/message.js is not in the source
tree): the denormalized join of a referenced user at read time. -/
def specSummary (db : Db) (uname : String) : SpecUserSummary :=
  match db.users.find? (fun r => r.username == uname) with
  | some u => ⟨uname, u.first_name, u.last_name, u.phone⟩
  | none => ⟨uname, "", "", ""⟩

/-- The detail shape of the spec's Message Ledger `get`: message columns
plus embedded from/to user summaries. -/
structure MessageDetail where
  id : Nat
  body : String
  sent_at : Nat
  read_at : Option Nat
  from_user : SpecUserSummary
  to_user : SpecUserSummary
deriving Repr, DecidableEq

/-- Modelled from the spec: Message Ledger `get(id) -> Message with embedded
from/to user summaries`; fails with `NotFound` (404) if no message with
`id` exists (src/models/message.js is not in the source tree). -/
def Message.get (db : Db) (id : Nat) : Except ExpressError MessageDetail :=
  match db.messages.find? (fun m => m.id == id) with
  | none => Except.error ⟨"No such message", 404⟩
  | some m =>
      Except.ok
        { id := m.id, body := m.body, sent_at := m.sent_at, read_at := m.read_at
          from_user := specSummary db m.from_username
          to_user := specSummary db m.to_username }

/-- The argument object of the spec's Message Ledger `create`. -/
structure CreateArgs where
  from_username : String
  to_username : String
  body : String
deriving Repr, DecidableEq

/-- Modelled from the spec: Message Ledger
`create({fromUsername, toUsername, body}) -> Message` persists a new
message with a storage-assigned id, `sentAt` set to the creation instant
and `readAt` null (src/models/message.js is not in the source tree). -/
def Message.create (db : Db) (a : CreateArgs) : MessageRecord × Db :=
  let m : MessageRecord :=
    ⟨db.nextId, a.from_username, a.to_username, a.body, db.now, none⟩
  (m, { db with messages := db.messages ++ [m], nextId := db.nextId + 1 })

/-- The `{id, readAt}` row the spec's Message Ledger `markRead` returns. -/
structure MarkReadRow where
  id : Nat
  read_at : Nat
deriving Repr, DecidableEq

/-- Modelled from the spec: Message Ledger `markRead(id)` sets `readAt` to
the current instant and returns `{id, readAt}` (src/models/message.js is
not in the source tree). -/
def Message.markRead (db : Db) (id : Nat) : MarkReadRow × Db :=
  (⟨id, db.now⟩,
   { db with
     messages := db.messages.map (fun m =>
       if m.id == id then { m with read_at := some db.now } else m) })

/-- Result of an express route handler: a `res.json` payload, a `next(e)`
with an `ExpressError` (the error handler then serves `e.status`), or a
`next(e)` with a TypeError raised by reading `.username` off an undefined
`req.user` (the error handler then serves a generic 500, not 401). -/
inductive RouteResult (α : Type) where
  | json (v : α)
  | err (e : ExpressError)
  | typeError
deriving Repr, DecidableEq

/-- src/routes/messages.js `GET /:id`: fetches the message first, then
compares the caller against the embedded from/to usernames.  The route has
no authentication middleware: `caller` is the verified token identity when
present (`req.user`), and with no verified token `req.user` is undefined,
so evaluating `req.user.username` throws a TypeError. -/
def getMessageRoute (db : Db) (caller : Option String) (id : Nat) :
    RouteResult MessageDetail :=
  match Message.get db id with
  | Except.error e => RouteResult.err e
  | Except.ok message =>
      match caller with
      | none => RouteResult.typeError
      | some c =>
          if c == message.from_user.username || c == message.to_user.username then
            RouteResult.json message
          else
            RouteResult.err ⟨"Not Authorized", 401⟩

/-- The request body of `POST /messages`.  The source reads only
`req.body.to_username` and `req.body.body`; a body-supplied `from_username`
(modelled here so its irrelevance can be stated) is never read. -/
structure SendBody where
  from_username : Option String
  to_username : String
  body : String
deriving Repr, DecidableEq

/-- src/routes/messages.js `POST /`: guarded by `ensureLoggedIn`
(src/middleware/auth.js is not in the source tree; modelled from the spec:
a request without a successfully verified bearer token fails with
`Unauthenticated`, 401).  The created message's sender is bound to the
verified identity `req.user.username`, never to the body. -/
def postMessageRoute (db : Db) (caller : Option String) (reqBody : SendBody) :
    RouteResult MessageRecord × Db :=
  match caller with
  | none => (RouteResult.err ⟨"Unauthorized", 401⟩, db)
  | some c =>
      let created := Message.create db ⟨c, reqBody.to_username, reqBody.body⟩
      (RouteResult.json created.1, created.2)

/-- src/routes/messages.js `POST /:id/read`: fetches the message first,
then lets only the recipient mark it read.  Like `GET /:id` it has no
authentication middleware, so with no verified token reading
`req.user.username` throws a TypeError. -/
def markReadRoute (db : Db) (caller : Option String) (id : Nat) :
    RouteResult MarkReadRow × Db :=
  match Message.get db id with
  | Except.error e => (RouteResult.err e, db)
  | Except.ok message =>
      match caller with
      | none => (RouteResult.typeError, db)
      | some c =>
          if c == message.to_user.username then
            let results := Message.markRead db id
            (RouteResult.json results.1, results.2)
          else
            (RouteResult.err ⟨"Not Authorized", 401⟩, db)

/-- Result of an auth route: a `res.json` payload (an association list of
response fields), a `next(e)`, or — in `POST /register` when
`User.register` returned undefined — no response at all (the handler falls
through without replying or erroring). -/
inductive AuthResponse where
  | json (fields : List (String × JsValue))
  | err (e : ExpressError)
  | noResponse
deriving Repr, DecidableEq

/-- src/routes/auth.js `POST /login`: validates presence of both fields,
authenticates, and on success responds with exactly
`{message: "Logged in!", token}` where the token signs `{username}`. -/
def loginRoute (compare : String → String → Bool) (sign : String → String)
    (db : Db) (username password : String) : AuthResponse × Db :=
  if username == "" || password == "" then
    (AuthResponse.err ⟨"Username and password required", 400⟩, db)
  else
    match User.authenticate compare db username password with
    | Except.error e => (AuthResponse.err e, db)
    | Except.ok true =>
        (AuthResponse.json
          [("message", JsValue.str "Logged in!"), ("token", JsValue.str (sign username))],
         User.updateLoginTimestamp db username)
    | Except.ok false => (AuthResponse.err ⟨"Invalid username/password", 400⟩, db)

/-- src/routes/auth.js `POST /register`: validates presence of all five
fields, registers, and when `User.register` produced a truthy row responds
with exactly `{message: "registered!", token}`; the registered row itself
(including the password hash it contains) is never serialized into the
response. -/
def registerRoute (hash : String → String) (sign : String → String)
    (fault : Option String) (db : Db)
    (username password first_name last_name phone : String) :
    AuthResponse × Db :=
  if username == "" || password == "" || first_name == "" || last_name == "" ||
      phone == "" then
    (AuthResponse.err ⟨"please input all required information", 400⟩, db)
  else
    match User.register hash fault db username password first_name last_name phone with
    | (RegisterOutcome.ok _row, db2) =>
        (AuthResponse.json
          [("message", JsValue.str "registered!"), ("token", JsValue.str (sign username))],
         User.updateLoginTimestamp db2 username)
    | (RegisterOutcome.err e, db2) => (AuthResponse.err e, db2)
    | (RegisterOutcome.undef, db2) => (AuthResponse.noResponse, db2)

/-- A concrete bcrypt-like hash used only to instantiate theorems at
concrete inputs. -/
def hash0 (p : String) : String :=
  String.append "h" p

/-- The matching concrete verification primitive. -/
def compare0 (p h : String) : Bool :=
  h == String.append "h" p

/-- A concrete signing function used only to instantiate theorems. -/
def sign0 (u : String) : String :=
  String.append "t" u

/-- A concrete user row. -/
def alice : UserRecord :=
  ⟨"alice", "hpw1", "A", "L", "555", 0, 0⟩

/-- A concrete user row. -/
def bob : UserRecord :=
  ⟨"bob", "hpw2", "B", "M", "556", 0, 0⟩

/-- A concrete message from alice to bob. -/
def msg1 : MessageRecord :=
  ⟨1, "alice", "bob", "hi", 1, none⟩

/-- A concrete store holding alice, bob and one message. -/
def sampleDb : Db :=
  ⟨[alice, bob], [msg1], 2, 5⟩

/-- C1 counterexample: the claim says the value returned by `register`
excludes the stored password hash, but at a concrete registration the
RETURNING row contains the field `("password", "hpw")`, and `"hpw"` is
exactly the hash stored for the new user in the database (`hash0 "pw"`).
So `register` does include the stored password hash in its result. -/
theorem register_result_contains_password_hash :
    User.register hash0 none sampleDb "carol" "pw" "C" "N" "557" =
      (RegisterOutcome.ok
        [("username", JsValue.str "carol"), ("password", JsValue.str "hpw"),
         ("first_name", JsValue.str "C"), ("last_name", JsValue.str "N"),
         ("phone", JsValue.str "557")],
       { sampleDb with users := sampleDb.users ++ [⟨"carol", "hpw", "C", "N", "557", 5, 5⟩] }) ∧
    hash0 "pw" = "hpw" := by
  constructor <;> rfl

/-- Claim C1 (amended): the projections returned by `get` and `list`
contain only username, first/last name, phone (and join/last-login
timestamps for `get`) — in particular never a `password` field — while the
value returned by `register` does include the stored `password` hash. -/
theorem profile_projections_exclude_hash_but_register_includes_it :
    (∀ db u row, User.get db u = Except.ok row →
        row.map Prod.fst =
          ["username", "first_name", "last_name", "phone", "join_at", "last_login_at"]) ∧
    (∀ db row, row ∈ User.all db →
        row.map Prod.fst = ["username", "first_name", "last_name", "phone"]) ∧
    (∀ hash fault db u p f l ph row db2,
        User.register hash fault db u p f l ph = (RegisterOutcome.ok row, db2) →
        ("password", JsValue.str (hash p)) ∈ row) := by
  refine ⟨?_, ?_, ?_⟩
  · intro db u row h
    unfold User.get at h
    cases hf : db.users.find? (fun r => r.username == u) with
    | none => rw [hf] at h; cases h
    | some u0 => rw [hf] at h; cases h; rfl
  · intro db row h
    obtain ⟨u, _, rfl⟩ := List.mem_map.mp h
    rfl
  · intro hash fault db u p f l ph row db2 h
    simp only [User.register] at h
    cases hins : insertUser fault db ⟨u, hash p, f, l, ph, db.now, db.now⟩ with
    | ok db3 =>
        rw [hins] at h
        dsimp only at h
        injection h with h1 h2
        injection h1 with h1
        subst h1
        simp [registerReturning]
    | error code =>
        rw [hins] at h
        dsimp only at h
        split at h <;> simp at h

/-- Witness for `profile_projections_exclude_hash_but_register_includes_it`
at concrete inputs: the `get` projection for alice and a concrete
registration row. -/
theorem profile_projections_witness :
    (getRow alice).map Prod.fst =
        ["username", "first_name", "last_name", "phone", "join_at", "last_login_at"] ∧
    ("password", JsValue.str (hash0 "pw")) ∈ registerReturning ⟨"carol", hash0 "pw", "C", "N", "557", 5, 5⟩ := by
  constructor
  · exact profile_projections_exclude_hash_but_register_includes_it.1 sampleDb "alice"
      (getRow alice) rfl
  · exact profile_projections_exclude_hash_but_register_includes_it.2.2 hash0 none sampleDb
      "carol" "pw" "C" "N" "557"
      (registerReturning ⟨"carol", hash0 "pw", "C", "N", "557", 5, 5⟩)
      { sampleDb with users := sampleDb.users ++ [⟨"carol", hash0 "pw", "C", "N", "557", 5, 5⟩] }
      rfl

/-- Claim C8: the spec requires every storage failure other than the
duplicate-username conflict to propagate as an error, but `register`'s
catch block rethrows only for code "23505" and otherwise falls through, so
the call completes with neither a result nor an error (undefined) and the
store is left as it was.  Evaluated here at a storage failure with pg
error code "23502" (not-null violation). -/
theorem register_swallows_non_duplicate_storage_failure :
    User.register hash0 (some "23502") sampleDb "dave" "pw" "D" "E" "558" =
      (RegisterOutcome.undef, sampleDb) := by
  rfl

/-- Claim C9: `messagesFrom` and `messagesTo` always return a sequence and
never raise the 404 "messages not found" error: the guard `!messages` tests
the truthiness of an array, and an array is always truthy in JavaScript, so
the error branch is unreachable; when the user has no matching messages the
result is the empty sequence. -/
theorem messages_queries_never_not_found :
    ∀ db u,
      (∃ l, User.messagesFrom db u = Except.ok l) ∧
      (∃ l, User.messagesTo db u = Except.ok l) ∧
      (∀ e, User.messagesFrom db u ≠ Except.error e) ∧
      (∀ e, User.messagesTo db u ≠ Except.error e) ∧
      (db.messages.filter (fun m => m.from_username == u) = [] →
        User.messagesFrom db u = Except.ok []) ∧
      (db.messages.filter (fun m => m.to_username == u) = [] →
        User.messagesTo db u = Except.ok []) := by
  intro db u
  refine ⟨⟨_, rfl⟩, ⟨_, rfl⟩, ?_, ?_, ?_, ?_⟩
  · intro e h
    simp [User.messagesFrom, jsArrayFalsy] at h
  · intro e h
    simp [User.messagesTo, jsArrayFalsy] at h
  · intro h
    simp [User.messagesFrom, jsArrayFalsy, h]
  · intro h
    simp [User.messagesTo, jsArrayFalsy, h]

/-- Witness for `messages_queries_never_not_found` at a concrete store and
a username with no messages. -/
theorem messages_queries_witness :
    User.messagesFrom sampleDb "nobody" = Except.ok [] ∧
    User.messagesTo sampleDb "nobody" = Except.ok [] :=
  ⟨(messages_queries_never_not_found sampleDb "nobody").2.2.2.2.1 rfl,
   (messages_queries_never_not_found sampleDb "nobody").2.2.2.2.2 rfl⟩

/-- Claim C6: registering a username that already exists makes the store's
INSERT fail with the unique-key conflict (code "23505"), which `register`
translates into the domain error `ExpressError ("Username taken. Please
pick another", 400)` — never the raw constraint code — and the store is
returned unchanged, so the first registration's stored profile is
unaffected. -/
theorem duplicate_registration_rejected :
    ∀ (hash : String → String) (db : Db) (u p f l ph : String) (u0 : UserRecord),
      u0 ∈ db.users → u0.username = u →
      User.register hash none db u p f l ph =
        (RegisterOutcome.err ⟨"Username taken. Please pick another", 400⟩, db) := by
  intro hash db u p f l ph u0 hmem huser
  have hany : db.users.any (fun r => r.username == u) = true :=
    List.any_eq_true.mpr ⟨u0, hmem, by simp [huser]⟩
  simp [User.register, insertUser, hany]

/-- Witness for `duplicate_registration_rejected`: re-registering "alice"
against the concrete store fails with the translated 400 error and leaves
the store unchanged. -/
theorem duplicate_registration_witness :
    User.register hash0 none sampleDb "alice" "pw9" "A2" "L2" "559" =
      (RegisterOutcome.err ⟨"Username taken. Please pick another", 400⟩, sampleDb) :=
  duplicate_registration_rejected hash0 sampleDb "alice" "pw9" "A2" "L2" "559" alice
    (by simp [sampleDb]) rfl

/-- Claim C7: `authenticate` fails (with the 400 "Username and password
required" error, the only error it can produce) iff an argument is empty;
with both arguments non-empty and no matching user it returns `false`
rather than erroring; and it returns `true` only when `compare` verifies
the password against the stored hash of a user found under that
username. -/
theorem authenticate_behavior :
    ∀ (compare : String → String → Bool) (db : Db) (u p : String),
      (User.authenticate compare db u p =
          Except.error ⟨"Username and password required", 400⟩ ↔ u = "" ∨ p = "") ∧
      (∀ e, User.authenticate compare db u p = Except.error e →
          e = ⟨"Username and password required", 400⟩) ∧
      (db.users.find? (fun r => r.username == u) = none → u ≠ "" → p ≠ "" →
          User.authenticate compare db u p = Except.ok false) ∧
      (User.authenticate compare db u p = Except.ok true →
          ∃ r, db.users.find? (fun r2 => r2.username == u) = some r ∧
            compare p r.password = true) := by
  intro compare db u p
  refine ⟨?_, ?_, ?_, ?_⟩
  · unfold User.authenticate
    by_cases hb : (u == "" || p == "") = true
    · rw [if_pos hb]
      simp only [Bool.or_eq_true, beq_iff_eq] at hb
      simp [hb]
    · rw [if_neg hb]
      simp only [Bool.or_eq_true, beq_iff_eq] at hb
      push_neg at hb
      cases hf : db.users.find? (fun r => r.username == u) with
      | none => simp [hb.1, hb.2]
      | some r => simp [hb.1, hb.2]
  · intro e h
    unfold User.authenticate at h
    split at h
    · injection h with h1
      exact h1.symm
    · cases hf : db.users.find? (fun r => r.username == u) <;> rw [hf] at h <;> cases h
  · intro hf hu hp
    have hb : ¬((u == "" || p == "") = true) := by
      simp [Bool.or_eq_true, beq_iff_eq, hu, hp]
    rw [User.authenticate, if_neg hb, hf]
  · intro h
    unfold User.authenticate at h
    split at h
    · cases h
    · cases hf : db.users.find? (fun r => r.username == u) with
      | none => rw [hf] at h; cases h
      | some r =>
          rw [hf] at h
          injection h with h1
          exact ⟨r, rfl, h1⟩

/-- Witness for `authenticate_behavior`: an empty argument fails 400; an
unknown username yields `false`, not an error; and a successful
authentication of alice exhibits a found user whose stored hash
verifies. -/
theorem authenticate_witness :
    User.authenticate compare0 sampleDb "" "x" =
        Except.error ⟨"Username and password required", 400⟩ ∧
    User.authenticate compare0 sampleDb "nouser" "x" = Except.ok false ∧
    (∃ r, sampleDb.users.find? (fun r2 => r2.username == "alice") = some r ∧
        compare0 "pw1" r.password = true) :=
  ⟨(authenticate_behavior compare0 sampleDb "" "x").1.mpr (Or.inl rfl),
   (authenticate_behavior compare0 sampleDb "nouser" "x").2.2.1 rfl
     (by decide) (by decide),
   (authenticate_behavior compare0 sampleDb "alice" "pw1").2.2.2 rfl⟩

/-- C2 counterexample: the claim says every request lacking a valid token
on `GET /messages/:id` fails with Unauthenticated (401), but the route has
no authentication middleware: for the existing message 1 the handler
fetches the message and then throws a TypeError reading `.username` off the
undefined `req.user`, which the error handler serves as a generic server
error, not 401. -/
theorem unauthenticated_view_is_type_error :
    getMessageRoute sampleDb none 1 = RouteResult.typeError := by
  rfl

/-- Claim C2 (amended): only `POST /messages` is guarded by
`ensureLoggedIn` and fails with Unauthenticated (401) on every request
lacking a valid token; `GET /messages/:id` and `POST /messages/:id/read`
perform no authentication check before their access rule: with no verified
identity they fail with a TypeError (served as a generic server error) when
the message exists, and with NotFound (404) when it does not — never with
Unauthenticated. -/
theorem unauthenticated_request_outcomes :
    (∀ (db : Db) (b : SendBody),
        postMessageRoute db none b = (RouteResult.err ⟨"Unauthorized", 401⟩, db)) ∧
    (∀ (db : Db) (id : Nat) (m : MessageRecord),
        db.messages.find? (fun x => x.id == id) = some m →
        getMessageRoute db none id = RouteResult.typeError ∧
        markReadRoute db none id = (RouteResult.typeError, db)) ∧
    (∀ (db : Db) (id : Nat),
        db.messages.find? (fun x => x.id == id) = none →
        getMessageRoute db none id = RouteResult.err ⟨"No such message", 404⟩ ∧
        markReadRoute db none id = (RouteResult.err ⟨"No such message", 404⟩, db)) := by
  refine ⟨?_, ?_, ?_⟩
  · intro db b
    rfl
  · intro db id m hf
    constructor
    · unfold getMessageRoute Message.get
      rw [hf]
    · unfold markReadRoute Message.get
      rw [hf]
  · intro db id hf
    constructor
    · unfold getMessageRoute Message.get
      rw [hf]
    · unfold markReadRoute Message.get
      rw [hf]

/-- Witness for `unauthenticated_request_outcomes` at the concrete store:
an unauthenticated send is rejected 401, an unauthenticated view/mark-read
of message 1 raises a TypeError, and of the absent message 99 a 404. -/
theorem unauthenticated_request_witness :
    postMessageRoute sampleDb none ⟨some "mallory", "bob", "hey"⟩ =
        (RouteResult.err ⟨"Unauthorized", 401⟩, sampleDb) ∧
    markReadRoute sampleDb none 1 = (RouteResult.typeError, sampleDb) ∧
    getMessageRoute sampleDb none 99 = RouteResult.err ⟨"No such message", 404⟩ :=
  ⟨unauthenticated_request_outcomes.1 sampleDb ⟨some "mallory", "bob", "hey"⟩,
   (unauthenticated_request_outcomes.2.1 sampleDb 1 msg1 rfl).2,
   (unauthenticated_request_outcomes.2.2 sampleDb 99 rfl).1⟩

/-- Claim C3: for any authenticated caller, the created message's sender is
the verified identity, and the route's outcome is unchanged when the
body-supplied `from_username` varies (with recipient and body held fixed):
the authenticated identity overrides the body. -/
theorem send_binds_sender_to_caller :
    ∀ (db : Db) (c : String) (b1 b2 : SendBody),
      b1.to_username = b2.to_username → b1.body = b2.body →
      postMessageRoute db (some c) b1 = postMessageRoute db (some c) b2 ∧
      (∀ m db2, postMessageRoute db (some c) b1 = (RouteResult.json m, db2) →
        m.from_username = c) := by
  intro db c b1 b2 ht hb
  constructor
  · unfold postMessageRoute Message.create
    rw [ht, hb]
  · intro m db2 h
    unfold postMessageRoute Message.create at h
    dsimp only at h
    injection h with h1 h2
    injection h1 with h1
    subst h1
    rfl

/-- Witness for `send_binds_sender_to_caller`: two bodies differing only in
a spoofed `from_username` yield identical outcomes, and the created
message's sender is the caller "alice". -/
theorem send_binds_sender_witness :
    postMessageRoute sampleDb (some "alice") ⟨some "mallory", "bob", "yo"⟩ =
        postMessageRoute sampleDb (some "alice") ⟨none, "bob", "yo"⟩ ∧
    (⟨sampleDb.nextId, "alice", "bob", "yo", sampleDb.now, none⟩ : MessageRecord).from_username =
        "alice" :=
  ⟨(send_binds_sender_to_caller sampleDb "alice" ⟨some "mallory", "bob", "yo"⟩
      ⟨none, "bob", "yo"⟩ rfl rfl).1,
   (send_binds_sender_to_caller sampleDb "alice" ⟨some "mallory", "bob", "yo"⟩
      ⟨none, "bob", "yo"⟩ rfl rfl).2
     ⟨sampleDb.nextId, "alice", "bob", "yo", sampleDb.now, none⟩
     { sampleDb with
       messages := sampleDb.messages ++
         [⟨sampleDb.nextId, "alice", "bob", "yo", sampleDb.now, none⟩],
       nextId := sampleDb.nextId + 1 }
     rfl⟩

/-- The embedded summary's username is the join key itself. -/
theorem specSummary_username (db : Db) (uname : String) :
    (specSummary db uname).username = uname := by
  unfold specSummary
  cases db.users.find? (fun r => r.username == uname) <;> rfl

/-- Claim C4: for an existing message and an authenticated caller, viewing
succeeds iff the caller is the sender or the recipient; any other caller
gets the Forbidden outcome — the `ExpressError ("Not Authorized", 401)`
this source uses for authenticated-but-not-authorized (the spec's error
table maps `Forbidden` to 401 here) — whatever the message's content. -/
theorem view_message_iff_participant :
    ∀ (db : Db) (c : String) (id : Nat) (m : MessageRecord),
      db.messages.find? (fun x => x.id == id) = some m →
      ((∃ v, getMessageRoute db (some c) id = RouteResult.json v) ↔
        c = m.from_username ∨ c = m.to_username) ∧
      (c ≠ m.from_username → c ≠ m.to_username →
        getMessageRoute db (some c) id = RouteResult.err ⟨"Not Authorized", 401⟩) := by
  intro db c id m hf
  unfold getMessageRoute Message.get
  rw [hf]
  dsimp only
  rw [specSummary_username db m.from_username, specSummary_username db m.to_username]
  constructor
  · constructor
    · intro hv
      obtain ⟨v, hv⟩ := hv
      by_cases hc : (c == m.from_username || c == m.to_username) = true
      · simpa [Bool.or_eq_true, beq_iff_eq] using hc
      · rw [if_neg hc] at hv
        cases hv
    · intro hor
      have hc : (c == m.from_username || c == m.to_username) = true := by
        simp only [Bool.or_eq_true, beq_iff_eq]
        exact hor
      rw [if_pos hc]
      exact ⟨_, rfl⟩
  · intro h1 h2
    have hc : ¬((c == m.from_username || c == m.to_username) = true) := by
      simp [Bool.or_eq_true, beq_iff_eq, h1, h2]
    rw [if_neg hc]

/-- Witness for `view_message_iff_participant` at the concrete store: the
third party "carol" is refused with the 401 "Not Authorized" error, and the
recipient "bob" succeeds. -/
theorem view_message_witness :
    getMessageRoute sampleDb (some "carol") 1 =
        RouteResult.err ⟨"Not Authorized", 401⟩ ∧
    (∃ v, getMessageRoute sampleDb (some "bob") 1 = RouteResult.json v) :=
  ⟨(view_message_iff_participant sampleDb "carol" 1 msg1 rfl).2
      (by decide) (by decide),
   (view_message_iff_participant sampleDb "bob" 1 msg1 rfl).1.mpr (Or.inr rfl)⟩

/-- Claim C5: for an existing message and an authenticated caller, marking
it read succeeds iff the caller is the recipient; any other caller — in
particular the sender when not also the recipient — gets the Forbidden
outcome (`ExpressError ("Not Authorized", 401)`), and the store is returned
unchanged, so the message's `read_at` is untouched on that failure. -/
theorem mark_read_iff_recipient :
    ∀ (db : Db) (c : String) (id : Nat) (m : MessageRecord),
      db.messages.find? (fun x => x.id == id) = some m →
      ((∃ v db2, markReadRoute db (some c) id = (RouteResult.json v, db2)) ↔
        c = m.to_username) ∧
      (c ≠ m.to_username →
        markReadRoute db (some c) id = (RouteResult.err ⟨"Not Authorized", 401⟩, db)) := by
  intro db c id m hf
  unfold markReadRoute Message.get
  rw [hf]
  dsimp only
  rw [specSummary_username db m.to_username]
  constructor
  · constructor
    · intro hv
      obtain ⟨v, db2, hv⟩ := hv
      by_cases hc : (c == m.to_username) = true
      · exact beq_iff_eq.mp hc
      · rw [if_neg hc] at hv
        injection hv with hv1 hv2
        cases hv1
    · intro hor
      have hc : (c == m.to_username) = true := beq_iff_eq.mpr hor
      rw [if_pos hc]
      exact ⟨_, _, rfl⟩
  · intro h1
    have hc : ¬((c == m.to_username) = true) := by
      simp [beq_iff_eq, h1]
    rw [if_neg hc]

/-- Witness for `mark_read_iff_recipient` at the concrete store: the sender
"alice" is refused with the 401 "Not Authorized" error and the store (hence
the message's `read_at`) is unchanged, while the recipient "bob"
succeeds. -/
theorem mark_read_witness :
    markReadRoute sampleDb (some "alice") 1 =
        (RouteResult.err ⟨"Not Authorized", 401⟩, sampleDb) ∧
    (∃ v db2, markReadRoute sampleDb (some "bob") 1 = (RouteResult.json v, db2)) :=
  ⟨(mark_read_iff_recipient sampleDb "alice" 1 msg1 rfl).2 (by decide),
   (mark_read_iff_recipient sampleDb "bob" 1 msg1 rfl).1.mpr rfl⟩

/-- Claim C10: whenever `POST /login` or `POST /register` responds
successfully, the response body is exactly the two fields `message` and
`token`, with the fixed message string and a token that is a function of
the username alone — no field of the record produced by `User.register`
or looked up by `User.authenticate` (in particular no password hash) is
ever serialized into the response. -/
theorem auth_routes_respond_message_and_token_only :
    (∀ (compare : String → String → Bool) (sign : String → String) (db : Db)
        (u p : String) (fields : List (String × JsValue)) (db2 : Db),
        loginRoute compare sign db u p = (AuthResponse.json fields, db2) →
        fields =
          [("message", JsValue.str "Logged in!"), ("token", JsValue.str (sign u))]) ∧
    (∀ (hash sign : String → String) (fault : Option String) (db : Db)
        (u p f l ph : String) (fields : List (String × JsValue)) (db2 : Db),
        registerRoute hash sign fault db u p f l ph = (AuthResponse.json fields, db2) →
        fields =
          [("message", JsValue.str "registered!"), ("token", JsValue.str (sign u))]) := by
  constructor
  · intro compare sign db u p fields db2 h
    unfold loginRoute at h
    split at h
    · injection h with h1 h2
      cases h1
    · split at h
      · injection h with h1 h2
        cases h1
      · injection h with h1 h2
        injection h1 with h1
        exact h1.symm
      · injection h with h1 h2
        cases h1
  · intro hash sign fault db u p f l ph fields db2 h
    unfold registerRoute at h
    split at h
    · injection h with h1 h2
      cases h1
    · split at h
      · injection h with h1 h2
        injection h1 with h1
        exact h1.symm
      · injection h with h1 h2
        cases h1
      · injection h with h1 h2
        cases h1

/-- Witness for `auth_routes_respond_message_and_token_only`: a concrete
successful login of "alice" and registration of "carol", whose responses
are exactly the message/token pairs. -/
theorem auth_routes_witness :
    ([("message", JsValue.str "Logged in!"), ("token", JsValue.str "talice")] :
        List (String × JsValue)) =
      [("message", JsValue.str "Logged in!"), ("token", JsValue.str (sign0 "alice"))] ∧
    ([("message", JsValue.str "registered!"), ("token", JsValue.str "tcarol")] :
        List (String × JsValue)) =
      [("message", JsValue.str "registered!"), ("token", JsValue.str (sign0 "carol"))] :=
  ⟨auth_routes_respond_message_and_token_only.1 compare0 sign0 sampleDb "alice" "pw1"
      [("message", JsValue.str "Logged in!"), ("token", JsValue.str "talice")]
      (User.updateLoginTimestamp sampleDb "alice") rfl,
   auth_routes_respond_message_and_token_only.2 hash0 sign0 none sampleDb
      "carol" "pw" "C" "N" "557"
      [("message", JsValue.str "registered!"), ("token", JsValue.str "tcarol")]
      (User.updateLoginTimestamp
        { sampleDb with users := sampleDb.users ++ [⟨"carol", "hpw", "C", "N", "557", 5, 5⟩] }
        "carol") rfl⟩

end Messagely
